import Mathlib

/-!
Shallow embedding of `source/water.py` from the WaterCaustics repository:
the `Ocean` and `Pool` orchestration classes, together with models of the
collaborator classes they construct and drive (`Tessendorf`, `Ripples`,
`Surface`, `Caustics`).  Those collaborators live in `heightfields.py`,
`surface.py` and `caustics.py`, which are not part of the provided source;
the parts of their behaviour needed here are modelled from the spec and
are marked `Modelled from the spec:` in their doc comments.

Python floats are modelled as rationals, GL resources (shaders, textures,
the camera, the cubemap) are omitted: no claim mentions them.
-/

namespace WaterCaustics

/-- Model of `vector.Vector2` (an x/z pair of Python floats). -/
structure Vector2 where
  x : ℚ
  z : ℚ
deriving DecidableEq, Repr

/-- Model of `vector.Vector3`. -/
structure Vector3 where
  x : ℚ
  y : ℚ
  z : ℚ
deriving DecidableEq, Repr

/-- Modelled from the spec: the `InvalidParameterError` (a
`ConfigurationError`) raised by the ocean-generator constructor in
`heightfields.py`, which is not under the provided source.  One variant per
documented rejection: tile size not a power of two, zero-magnitude wind,
non-positive length. -/
inductive InvalidParameterError where
  | tileSizeNotPowerOfTwo
  | zeroMagnitudeWind
  | nonPositiveLength
deriving DecidableEq, Repr

/-- The construction parameters of the `Tessendorf` height-field generator
(`Tessendorf(dimension, A, w, length, period)` in `heightfields.py`).  The
generator's lookup tables are a pure function of these, so the record of
parameters determines the generator. -/
structure Tessendorf where
  tileSize : ℕ
  waveHeight : ℚ
  wind : Vector2
  length : ℚ
  period : ℚ
deriving DecidableEq, Repr

/-- `n` is a power of two (`n ≠ 0` and `n` has a single set bit). -/
def isPowerOfTwo (n : ℕ) : Bool :=
  n != 0 && (n &&& (n - 1)) == 0

/-- Modelled from the spec: the validating constructor of the `Tessendorf`
generator (`heightfields.py`, not under the provided source).  The spec:
construction "fails with `InvalidParameterError` if tileSize is not a
supported power of two, wind magnitude is zero (undefined spectrum
direction), or length ≤ 0", and such errors are "always surfaced to the
caller, never silently corrected". -/
def mkTessendorf (tileSize : ℕ) (waveHeight : ℚ) (wind : Vector2)
    (length : ℚ) (period : ℚ) : Except InvalidParameterError Tessendorf :=
  if !isPowerOfTwo tileSize then
    .error .tileSizeNotPowerOfTwo
  else if wind.x == 0 && wind.z == 0 then
    .error .zeroMagnitudeWind
  else if length ≤ 0 then
    .error .nonPositiveLength
  else
    .ok ⟨tileSize, waveHeight, wind, length, period⟩

/-- Modelled from the spec: the height the generator produces at grid cell
`(i, j)` and time `t`.  The spectral synthesis itself (`heightfields.py`) is
not under the provided source; the spec fixes that the output is a
deterministic function of the construction parameters and the query time
("same seed ⇒ same spectrum ⇒ same output", phases "drawn from a fixed
pseudo-random seed so results are deterministic and reproducible for given
parameters").  We therefore model the height as an executable deterministic
function of `(tileSize, waveHeight, wind, length, period, t)` — a wave-sum
surrogate with a dispersion-style phase argument standing in for the
transform, which is all the determinism and no-op-reconfiguration claims
depend on. -/
def Tessendorf.heightAt (tf : Tessendorf) (t : ℚ) (i j : ℕ) : ℚ :=
  tf.waveHeight * (tf.wind.x * i + tf.wind.z * j + tf.length * t + tf.period)

/-- The full height grid the generator produces at time `t`: an
`N × N` grid for `N = tileSize`. -/
def Tessendorf.heightGrid (tf : Tessendorf) (t : ℚ) : List (List ℚ) :=
  (List.range tf.tileSize).map fun i =>
    (List.range tf.tileSize).map fun j => tf.heightAt t i j

/-- Model of `surface.Surface` (not under the provided source), keeping the
fields `water.py` constructs it with and that the claims mention: the
installed height-field generator, the grid/tile configuration, and the
offset vector whose y component carries the depth
(`offset=Vector3(0.0, depth, 0.0)` at both construction sites).
GL state (shader, textures, camera) is omitted. -/
structure Surface (α : Type) where
  heightfield : Option α
  tileSize : ℕ
  tilesX : ℕ
  tilesZ : ℕ
  scale : ℚ
  offset : Vector3
deriving DecidableEq, Repr

/-- Modelled from the spec: `Surface.setDepth` "updates projection depth
without rebuilding unrelated state" — it stores the new depth in the
surface's vertical offset and touches nothing else. -/
def Surface.setDepth {α : Type} (s : Surface α) (depth : ℚ) : Surface α :=
  { s with offset := ⟨s.offset.x, depth, s.offset.z⟩ }

/-- Modelled from the spec: `Surface.setHeightfield` installs a height-field
generator into the surface, replacing the previous one. -/
def Surface.setHeightfield {α : Type} (s : Surface α) (hf : α) : Surface α :=
  { s with heightfield := some hf }

/-- Model of `caustics.Caustics` (not under the provided source), keeping
the tuning parameters `water.py` constructs it with and later writes:
`Caustics(camera, surface, depth, causticTexture, photonScale,
photonIntensity)`. -/
structure Caustics where
  depth : ℚ
  photonScale : ℚ
  photonIntensity : ℚ
deriving DecidableEq, Repr

/-- Modelled from the spec: `Caustics.setDepth` "updates projection depth
without rebuilding unrelated state". -/
def Caustics.setDepth (c : Caustics) (depth : ℚ) : Caustics :=
  { c with depth := depth }

/-- State of an `Ocean` instance: the attributes `Ocean.__init__`
(`water.py` lines 13–103) assigns, minus the GL resources
(shaders, textures, cubemap, camera). -/
structure Ocean where
  wind : Vector2
  waveHeight : ℚ
  oceanDepth : ℚ
  period : ℚ
  drawSeaSurface : Bool
  drawSeaFloor : Bool
  enableCaustics : Bool
  photonIntensity : ℚ
  photonScale : ℚ
  tileSize : ℕ
  tilesX : ℕ
  tilesZ : ℕ
  length : ℕ
  scale : ℚ
  heightfield : Tessendorf
  surface : Surface Tessendorf
  caustics : Caustics
  ground : Surface Tessendorf
deriving DecidableEq, Repr

namespace Ocean

/-- `Ocean.__init__` (`water.py` lines 13–103), camera/cubemap and GL
resources omitted.  Attributes are assigned as in the source
(`length = tileSize`, flags start `True`); the `Tessendorf` construction
may raise, in which case `__init__` propagates the exception and no
instance is produced. -/
def init (scale : ℚ) (tileSize tilesX tilesZ : ℕ) (depth waveHeight : ℚ)
    (wind : Vector2) (period photonScale photonIntensity : ℚ) :
    Except InvalidParameterError Ocean :=
  match mkTessendorf tileSize waveHeight wind (tileSize : ℚ) period with
  | .error e => .error e
  | .ok hf =>
    .ok
      { wind := wind
        waveHeight := waveHeight
        oceanDepth := depth
        period := period
        drawSeaSurface := true
        drawSeaFloor := true
        enableCaustics := true
        photonIntensity := photonIntensity
        photonScale := photonScale
        tileSize := tileSize
        tilesX := tilesX
        tilesZ := tilesZ
        length := tileSize
        scale := scale
        heightfield := hf
        surface :=
          { heightfield := some hf
            tileSize := tileSize
            tilesX := tilesX
            tilesZ := tilesZ
            scale := scale
            offset := ⟨0, depth, 0⟩ }
        caustics :=
          { depth := depth
            photonScale := photonScale
            photonIntensity := photonIntensity }
        ground :=
          { heightfield := none
            tileSize := 1
            tilesX := tilesX
            tilesZ := tilesZ
            scale := scale * tileSize
            offset := ⟨0, 0, 0⟩ } }

/-- `Ocean.setCausticPhotonIntensity` (`water.py` lines 135–137). -/
def setCausticPhotonIntensity (o : Ocean) (intensity : ℚ) : Ocean :=
  { o with
    photonIntensity := intensity
    caustics := { o.caustics with photonIntensity := intensity } }

/-- `Ocean.setCausticPhotonScale` (`water.py` lines 138–140). -/
def setCausticPhotonScale (o : Ocean) (scale : ℚ) : Ocean :=
  { o with
    photonScale := scale
    caustics := { o.caustics with photonScale := scale } }

/-- `Ocean.setDepth` (`water.py` lines 142–145): stores the depth and
propagates it to the caustics engine and the surface. -/
def setDepth (o : Ocean) (depth : ℚ) : Ocean :=
  { o with
    oceanDepth := depth
    caustics := o.caustics.setDepth depth
    surface := o.surface.setDepth depth }

/-- `Ocean.resetHeightfield` (`water.py` lines 147–159): rebuilds the
`Tessendorf` generator from the currently stored parameters and installs it
into the surface.  The construction may raise, in which case the exception
propagates. -/
def resetHeightfield (o : Ocean) : Except InvalidParameterError Ocean :=
  match mkTessendorf o.tileSize o.waveHeight o.wind (o.length : ℚ) o.period with
  | .error e => .error e
  | .ok hf =>
    .ok { o with heightfield := hf, surface := o.surface.setHeightfield hf }

/-- `Ocean.setWind` (`water.py` lines 161–163): stores the wind, then
rebuilds the height field. -/
def setWind (o : Ocean) (wind : Vector2) : Except InvalidParameterError Ocean :=
  ({ o with wind := wind }).resetHeightfield

/-- `Ocean.setWaveHeight` (`water.py` lines 164–166): stores the wave
height, then rebuilds the height field. -/
def setWaveHeight (o : Ocean) (waveHeight : ℚ) :
    Except InvalidParameterError Ocean :=
  ({ o with waveHeight := waveHeight }).resetHeightfield

end Ocean

/-- The externally visible calls `Ocean.draw` makes, in order. -/
inductive DrawEvent where
  | surfaceDraw
  | causticsUpdate
  | groundDraw
deriving DecidableEq, Repr

/-- `Ocean.draw` (`water.py` lines 168–174) as the ordered trace of calls
it issues: the surface draw when `drawSeaSurface`, then — when
`drawSeaFloor` — the caustics refresh (when `enableCaustics`) followed by
the ground draw.  The state of the `Ocean` object is not modified. -/
def Ocean.draw (o : Ocean) (_dt : ℚ) : List DrawEvent :=
  (if o.drawSeaSurface then [.surfaceDraw] else []) ++
    (if o.drawSeaFloor then
      (if o.enableCaustics then [.causticsUpdate] else []) ++ [.groundDraw]
    else [])

/-- The reachable states of an `Ocean` instance: those produced by
`Ocean.__init__` and closed under the mutating methods of the class
(`water.py`; `draw` and `reloadShaders` modify none of the modelled
attributes). -/
inductive Reachable : Ocean → Prop where
  | init (scale : ℚ) (tileSize tilesX tilesZ : ℕ) (depth waveHeight : ℚ)
      (wind : Vector2) (period photonScale photonIntensity : ℚ) (o : Ocean) :
      Ocean.init scale tileSize tilesX tilesZ depth waveHeight wind period
        photonScale photonIntensity = .ok o →
      Reachable o
  | setCausticPhotonIntensity (o : Ocean) (i : ℚ) :
      Reachable o → Reachable (o.setCausticPhotonIntensity i)
  | setCausticPhotonScale (o : Ocean) (s : ℚ) :
      Reachable o → Reachable (o.setCausticPhotonScale s)
  | setDepth (o : Ocean) (d : ℚ) :
      Reachable o → Reachable (o.setDepth d)
  | resetHeightfield (o o' : Ocean) :
      Reachable o → o.resetHeightfield = .ok o' → Reachable o'
  | setWind (o o' : Ocean) (w : Vector2) :
      Reachable o → o.setWind w = .ok o' → Reachable o'
  | setWaveHeight (o o' : Ocean) (h : ℚ) :
      Reachable o → o.setWaveHeight h = .ok o' → Reachable o'

/-- State of the `Ripples` shallow-pool height field (`heightfields.py`,
not under the provided source).  Modelled from the spec: construction
"zero-initializes displacement and velocity grids"; `tap` events "are
queued and applied atomically on the next `advance`", so the state also
carries the queue of pending impulse cells. -/
structure Ripples where
  tileSize : ℕ
  displacement : List (List ℚ)
  velocity : List (List ℚ)
  pendingTaps : List (ℕ × ℕ)
deriving DecidableEq, Repr

/-- Modelled from the spec: `Ripples` construction
(`Ripples(camera, tileSize)` in `water.py`) — "zero-initializes
displacement and velocity grids" of the given size, with no taps queued. -/
def Ripples.init (tileSize : ℕ) : Ripples :=
  { tileSize := tileSize
    displacement := List.replicate tileSize (List.replicate tileSize 0)
    velocity := List.replicate tileSize (List.replicate tileSize 0)
    pendingTaps := [] }

/-- The grid index nearest a coordinate, clamped into `[0, n-1]`:
coordinates at or below zero map to cell 0, larger ones round to the
nearest cell and are capped at the last cell. -/
def clampIndex (n : ℕ) (q : ℚ) : ℕ :=
  if q ≤ 0 then 0 else min (n - 1) (round q).toNat

/-- Modelled from the spec: `Ripples.tap` "enqueues an impulse at the grid
cell nearest `position`; clamps out-of-range positions to the nearest valid
cell rather than failing".  It is total: no position raises. -/
def Ripples.tap (r : Ripples) (position : Vector2) : Ripples :=
  { r with
    pendingTaps :=
      r.pendingTaps ++
        [(clampIndex r.tileSize position.x, clampIndex r.tileSize position.z)] }

/-- A Python runtime error relevant to `water.py`: an unresolved bare name
at use time. -/
inductive PyError where
  | nameError (name : String)
deriving DecidableEq, Repr

/-- The names `water.py` binds at module scope (lines 1–10): the
named imports `Tessendorf`, `Ripples`, `Surface`, `Caustics`, `Vector2`,
`Vector3`, the module name `shader`, and the star imports from `pyglet`
and `pyglet.gl`.  The latter bind pyglet's submodules (`image`, `clock`,
…) and the OpenGL constants and functions; neither exports a name
`ShaderProgram` (that class lives in the repository's `shader` module and
is only reachable as the attribute `shader.ShaderProgram`).  Only the names
`Pool` looks up as bare globals are listed. -/
def waterModuleScope : List String :=
  ["Tessendorf", "Ripples", "Surface", "Caustics",
   "Vector2", "Vector3", "shader"]

/-- Resolution of a bare global name inside `water.py`: a `NameError`
when the module scope does not bind it. -/
def resolveGlobal (name : String) : Except PyError Unit :=
  if name ∈ waterModuleScope then .ok () else .error (.nameError name)

/-- State of a `Pool` instance: the attributes `Pool.__init__`
(`water.py` lines 180–212) assigns, minus the GL resources. -/
structure Pool where
  depth : ℚ
  tileSize : ℕ
  tilesX : ℕ
  tilesZ : ℕ
  scale : ℚ
  heightfield : Ripples
  surface : Surface Ripples
deriving DecidableEq, Repr

namespace Pool

/-- The attribute assignments of `Pool.__init__` (`water.py` lines
188–212): the state a `Pool` object holds once the body has run —
a zero-initialized `Ripples` field of the given tile size, and a surface
offset vertically by the given depth. -/
def initState (scale : ℚ) (tileSize tilesX tilesZ : ℕ) (depth : ℚ) : Pool :=
  let hf := Ripples.init tileSize
  { depth := depth
    tileSize := tileSize
    tilesX := tilesX
    tilesZ := tilesZ
    scale := scale
    heightfield := hf
    surface :=
      { heightfield := some hf
        tileSize := tileSize
        tilesX := tilesX
        tilesZ := tilesZ
        scale := scale
        offset := ⟨0, depth, 0⟩ } }

/-- `Pool.__init__` (`water.py` lines 180–212) as executed: after the
plain attribute assignments, line 197 evaluates the bare global
`ShaderProgram` (`self.surfaceShader = ShaderProgram.open(...)`), which
no import of `water.py` binds, so the constructor raises `NameError` before
completing and no instance is produced. -/
def init (scale : ℚ) (tileSize tilesX tilesZ : ℕ) (depth : ℚ) :
    Except PyError Pool :=
  match resolveGlobal "ShaderProgram" with
  | .error e => .error e
  | .ok _ => .ok (initState scale tileSize tilesX tilesZ depth)

/-- `Pool.setDepth` (`water.py` lines 214–215), as written in the source:
the body is `self.surface.setDepth(self.depth)` — it passes the *stored*
depth, not the argument, and never assigns `self.depth`. -/
def setDepth (p : Pool) (_depth : ℚ) : Pool :=
  { p with surface := p.surface.setDepth p.depth }

/-- `Pool.tap` (`water.py` lines 216–217): forwards the tap position
unchanged to the ripple height field. -/
def tap (p : Pool) (tapPosition : Vector2) : Pool :=
  { p with heightfield := p.heightfield.tap tapPosition }

end Pool

/-! Concrete sample states, used to witness the theorems below on explicit
inputs.  `sampleOcean` is exactly the instance `Ocean.__init__` produces
for scale 1, an 8×8 tile, depth 30, wave height 1, wind (64, 128),
period 10, photon scale 4 and photon intensity 2. -/

/-- The `Tessendorf` generator built from the sample parameters. -/
def sampleTessendorf : Tessendorf :=
  { tileSize := 8, waveHeight := 1, wind := ⟨64, 128⟩, length := 8, period := 10 }

/-- The `Ocean` instance the sample construction produces. -/
def sampleOcean : Ocean :=
  { wind := ⟨64, 128⟩
    waveHeight := 1
    oceanDepth := 30
    period := 10
    drawSeaSurface := true
    drawSeaFloor := true
    enableCaustics := true
    photonIntensity := 2
    photonScale := 4
    tileSize := 8
    tilesX := 1
    tilesZ := 1
    length := 8
    scale := 1
    heightfield := sampleTessendorf
    surface :=
      { heightfield := some sampleTessendorf
        tileSize := 8
        tilesX := 1
        tilesZ := 1
        scale := 1
        offset := ⟨0, 30, 0⟩ }
    caustics := { depth := 30, photonScale := 4, photonIntensity := 2 }
    ground :=
      { heightfield := none
        tileSize := 1
        tilesX := 1
        tilesZ := 1
        scale := 8
        offset := ⟨0, 0, 0⟩ } }

/-- The sample construction succeeds and yields `sampleOcean`. -/
theorem sampleOcean_init :
    Ocean.init 1 8 1 1 30 1 ⟨64, 128⟩ 10 4 2 = .ok sampleOcean := by
  simp only [Ocean.init, mkTessendorf, isPowerOfTwo, sampleOcean, sampleTessendorf]
  norm_num [show (8 &&& 7 : ℕ) = 0 from by decide]

/-- `sampleOcean` is a reachable `Ocean` state. -/
theorem sampleOcean_reachable : Reachable sampleOcean :=
  .init 1 8 1 1 30 1 ⟨64, 128⟩ 10 4 2 sampleOcean sampleOcean_init

/-- A successful `mkTessendorf` call returns exactly the record of its
arguments. -/
theorem mkTessendorf_ok (tileSize : ℕ) (waveHeight : ℚ) (wind : Vector2)
    (length period : ℚ) (tf : Tessendorf)
    (h : mkTessendorf tileSize waveHeight wind length period = .ok tf) :
    tf = ⟨tileSize, waveHeight, wind, length, period⟩ := by
  unfold mkTessendorf at h
  split at h
  · cases h
  · split at h
    · cases h
    · split at h
      · cases h
      · cases h; rfl

/-- Invariants holding in every reachable `Ocean` state: the draw/caustics
flags keep their construction-time value `True`, the stored `length` equals
the stored `tileSize`, the installed generator was built with that length,
and the photon parameters agree with the caustics engine's copies. -/
theorem reachable_invariants (o : Ocean) (h : Reachable o) :
    o.drawSeaSurface = true ∧ o.drawSeaFloor = true ∧
      o.enableCaustics = true ∧ o.length = o.tileSize ∧
      o.heightfield.length = (o.tileSize : ℚ) ∧
      o.photonIntensity = o.caustics.photonIntensity ∧
      o.photonScale = o.caustics.photonScale := by
  induction h with
  | init scale tileSize tilesX tilesZ depth waveHeight wind period pS pI o hinit =>
      unfold Ocean.init at hinit
      split at hinit
      · cases hinit
      · next hf hmk =>
          cases hinit
          rw [mkTessendorf_ok _ _ _ _ _ _ hmk]
          exact ⟨rfl, rfl, rfl, rfl, rfl, rfl, rfl⟩
  | setCausticPhotonIntensity o i _ ih =>
      obtain ⟨h1, h2, h3, h4, h5, h6, h7⟩ := ih
      exact ⟨h1, h2, h3, h4, h5, rfl, h7⟩
  | setCausticPhotonScale o s _ ih =>
      obtain ⟨h1, h2, h3, h4, h5, h6, h7⟩ := ih
      exact ⟨h1, h2, h3, h4, h5, h6, rfl⟩
  | setDepth o d _ ih => exact ih
  | resetHeightfield o o' _ hres ih =>
      obtain ⟨h1, h2, h3, h4, h5, h6, h7⟩ := ih
      unfold Ocean.resetHeightfield at hres
      split at hres
      · cases hres
      · next hf hmk =>
          cases hres
          rw [mkTessendorf_ok _ _ _ _ _ _ hmk]
          exact ⟨h1, h2, h3, h4, by rw [h4], h6, h7⟩
  | setWind o o' w _ hres ih =>
      obtain ⟨h1, h2, h3, h4, h5, h6, h7⟩ := ih
      unfold Ocean.setWind Ocean.resetHeightfield at hres
      split at hres
      · cases hres
      · next hf hmk =>
          cases hres
          rw [mkTessendorf_ok _ _ _ _ _ _ hmk]
          exact ⟨h1, h2, h3, h4, by rw [show ({o with wind := w} : Ocean).length = o.length from rfl, h4], h6, h7⟩
  | setWaveHeight o o' wh _ hres ih =>
      obtain ⟨h1, h2, h3, h4, h5, h6, h7⟩ := ih
      unfold Ocean.setWaveHeight Ocean.resetHeightfield at hres
      split at hres
      · cases hres
      · next hf hmk =>
          cases hres
          rw [mkTessendorf_ok _ _ _ _ _ _ hmk]
          exact ⟨h1, h2, h3, h4, by rw [show ({o with waveHeight := wh} : Ocean).length = o.length from rfl, h4], h6, h7⟩

/-- Helper: the clamped grid index is always a valid cell index. -/
theorem clampIndex_lt (n : ℕ) (q : ℚ) (hn : 0 < n) : clampIndex n q < n := by
  unfold clampIndex
  split
  · exact hn
  · exact lt_of_le_of_lt (min_le_left _ _) (Nat.sub_lt hn Nat.one_pos)

/-- C1: `Ocean.setWind(w)` stores `w` in `wind`, `Ocean.setWaveHeight(h)`
stores `h` in `waveHeight`, and each call fully regenerates the
height-field generator: the new generator is exactly the `Tessendorf`
constructed from the currently stored
`(tileSize, waveHeight, wind, length, period)` and it is installed into
the surface via `setHeightfield`, replacing the old one. -/
theorem ocean_setWind_setWaveHeight_regenerates (o : Ocean) (w : Vector2)
    (hgt : ℚ) (ow oh : Ocean)
    (hw : o.setWind w = .ok ow) (hh : o.setWaveHeight hgt = .ok oh) :
    ow.wind = w ∧
      mkTessendorf o.tileSize o.waveHeight w (o.length : ℚ) o.period =
        .ok ow.heightfield ∧
      ow.surface = o.surface.setHeightfield ow.heightfield ∧
      oh.waveHeight = hgt ∧
      mkTessendorf o.tileSize hgt o.wind (o.length : ℚ) o.period =
        .ok oh.heightfield ∧
      oh.surface = o.surface.setHeightfield oh.heightfield := by
  unfold Ocean.setWind Ocean.resetHeightfield at hw
  unfold Ocean.setWaveHeight Ocean.resetHeightfield at hh
  split at hw
  · cases hw
  · next hf hmk =>
      cases hw
      split at hh
      · cases hh
      · next hf2 hmk2 =>
          cases hh
          exact ⟨rfl, hmk, rfl, rfl, hmk2, rfl⟩

/-- The state the witness `setWind` call below produces: wind (1, 2) and a
generator rebuilt with it. -/
def sampleOceanWindy : Ocean :=
  { sampleOcean with
      wind := ⟨1, 2⟩
      heightfield := ⟨8, 1, ⟨1, 2⟩, 8, 10⟩
      surface :=
        { sampleOcean.surface with heightfield := some ⟨8, 1, ⟨1, 2⟩, 8, 10⟩ } }

/-- The state the witness `setWaveHeight` call below produces: wave height
7 and a generator rebuilt with it. -/
def sampleOceanSteep : Ocean :=
  { sampleOcean with
      waveHeight := 7
      heightfield := ⟨8, 7, ⟨64, 128⟩, 8, 10⟩
      surface :=
        { sampleOcean.surface with
            heightfield := some ⟨8, 7, ⟨64, 128⟩, 8, 10⟩ } }

/-- Witness for C1 on the sample instance: a concrete `setWind` and a
concrete `setWaveHeight` call, each regenerating the generator. -/
theorem ocean_setWind_setWaveHeight_regenerates_witness :
    sampleOcean.setWind ⟨1, 2⟩ = .ok sampleOceanWindy ∧
      sampleOcean.setWaveHeight 7 = .ok sampleOceanSteep ∧
      (sampleOceanWindy.wind = ⟨1, 2⟩ ∧
        mkTessendorf sampleOcean.tileSize sampleOcean.waveHeight ⟨1, 2⟩
            (sampleOcean.length : ℚ) sampleOcean.period =
          .ok sampleOceanWindy.heightfield ∧
        sampleOceanWindy.surface =
          sampleOcean.surface.setHeightfield sampleOceanWindy.heightfield ∧
        sampleOceanSteep.waveHeight = 7 ∧
        mkTessendorf sampleOcean.tileSize 7 sampleOcean.wind
            (sampleOcean.length : ℚ) sampleOcean.period =
          .ok sampleOceanSteep.heightfield ∧
        sampleOceanSteep.surface =
          sampleOcean.surface.setHeightfield sampleOceanSteep.heightfield) := by
  have hw : sampleOcean.setWind ⟨1, 2⟩ = .ok sampleOceanWindy := by
    simp only [Ocean.setWind, Ocean.resetHeightfield, mkTessendorf,
      isPowerOfTwo, Surface.setHeightfield, sampleOcean, sampleOceanWindy,
      sampleTessendorf]
    norm_num [show (8 &&& 7 : ℕ) = 0 from by decide]
  have hh : sampleOcean.setWaveHeight 7 = .ok sampleOceanSteep := by
    simp only [Ocean.setWaveHeight, Ocean.resetHeightfield, mkTessendorf,
      isPowerOfTwo, Surface.setHeightfield, sampleOcean, sampleOceanSteep,
      sampleTessendorf]
    norm_num [show (8 &&& 7 : ℕ) = 0 from by decide]
  exact ⟨hw, hh,
    ocean_setWind_setWaveHeight_regenerates sampleOcean ⟨1, 2⟩ 7
      sampleOceanWindy sampleOceanSteep hw hh⟩

/-- C3: `Ocean.setDepth(d)` stores `d` in `oceanDepth` and propagates it to
the caustics engine and the surface, and modifies nothing else: wind, wave
height, photon parameters, tile size, length and period are untouched and
the height-field generator is neither rebuilt nor replaced. -/
theorem ocean_setDepth_updates_only_depth (o : Ocean) (d : ℚ) :
    (o.setDepth d).oceanDepth = d ∧
      (o.setDepth d).caustics.depth = d ∧
      (o.setDepth d).surface.offset =
        ⟨o.surface.offset.x, d, o.surface.offset.z⟩ ∧
      (o.setDepth d).wind = o.wind ∧
      (o.setDepth d).waveHeight = o.waveHeight ∧
      (o.setDepth d).photonScale = o.photonScale ∧
      (o.setDepth d).photonIntensity = o.photonIntensity ∧
      (o.setDepth d).tileSize = o.tileSize ∧
      (o.setDepth d).length = o.length ∧
      (o.setDepth d).period = o.period ∧
      (o.setDepth d).heightfield = o.heightfield ∧
      (o.setDepth d).surface.heightfield = o.surface.heightfield ∧
      (o.setDepth d).caustics.photonScale = o.caustics.photonScale ∧
      (o.setDepth d).caustics.photonIntensity = o.caustics.photonIntensity :=
  ⟨rfl, rfl, rfl, rfl, rfl, rfl, rfl, rfl, rfl, rfl, rfl, rfl, rfl, rfl⟩

/-- C4: constructing the ocean generator with an invalid configuration —
tile size not a power of two, a zero-magnitude wind vector, or a
non-positive length — yields an `InvalidParameterError`, never a silently
accepted or corrected generator. -/
theorem mkTessendorf_rejects_invalid_parameters (tileSize : ℕ)
    (waveHeight : ℚ) (wind : Vector2) (length period : ℚ)
    (h : isPowerOfTwo tileSize = false ∨ (wind.x = 0 ∧ wind.z = 0) ∨
      length ≤ 0) :
    ∃ e : InvalidParameterError,
      mkTessendorf tileSize waveHeight wind length period = .error e := by
  rcases h with h1 | ⟨hx, hz⟩ | h3
  · exact ⟨.tileSizeNotPowerOfTwo, by simp [mkTessendorf, h1]⟩
  · cases h1 : isPowerOfTwo tileSize
    · exact ⟨.tileSizeNotPowerOfTwo, by simp [mkTessendorf, h1]⟩
    · exact ⟨.zeroMagnitudeWind, by simp [mkTessendorf, h1, hx, hz]⟩
  · cases h1 : isPowerOfTwo tileSize
    · exact ⟨.tileSizeNotPowerOfTwo, by simp [mkTessendorf, h1]⟩
    · by_cases h2 : (wind.x == 0 && wind.z == 0) = true
      · exact ⟨.zeroMagnitudeWind, by simp [mkTessendorf, h1, h2]⟩
      · exact ⟨.nonPositiveLength, by simp [mkTessendorf, h1, h2, h3]⟩

/-- Witness for C4 at a concrete invalid input (tile size 3 is not a power
of two). -/
theorem mkTessendorf_rejects_invalid_parameters_witness :
    (isPowerOfTwo 3 = false ∨
      ((⟨7, 0⟩ : Vector2).x = 0 ∧ (⟨7, 0⟩ : Vector2).z = 0) ∨ (5 : ℚ) ≤ 0) ∧
      ∃ e : InvalidParameterError,
        mkTessendorf 3 1 ⟨7, 0⟩ 5 2 = .error e :=
  ⟨Or.inl (by decide),
    mkTessendorf_rejects_invalid_parameters 3 1 ⟨7, 0⟩ 5 2 (Or.inl (by decide))⟩

/-- C6: for every reachable `Ocean` instance and every `dt`, `draw(dt)`
refreshes the caustic texture exactly once — one `caustics.update` call —
and that refresh happens before the sea floor is drawn. -/
theorem ocean_draw_updates_caustics_once_before_floor (o : Ocean)
    (h : Reachable o) (dt : ℚ) :
    (o.draw dt).count DrawEvent.causticsUpdate = 1 ∧
      ∃ i j : ℕ, i < j ∧
        (o.draw dt).get? i = some DrawEvent.causticsUpdate ∧
        (o.draw dt).get? j = some DrawEvent.groundDraw := by
  obtain ⟨h1, h2, h3, -, -, -, -⟩ := reachable_invariants o h
  have hdraw : o.draw dt = [.surfaceDraw, .causticsUpdate, .groundDraw] := by
    simp [Ocean.draw, h1, h2, h3]
  rw [hdraw]
  exact ⟨by decide, 1, 2, by decide, rfl, rfl⟩

/-- Witness for C6 on the sample instance. -/
theorem ocean_draw_updates_caustics_once_before_floor_witness :
    Reachable sampleOcean ∧
      ((sampleOcean.draw 0).count DrawEvent.causticsUpdate = 1 ∧
        ∃ i j : ℕ, i < j ∧
          (sampleOcean.draw 0).get? i = some DrawEvent.causticsUpdate ∧
          (sampleOcean.draw 0).get? j = some DrawEvent.groundDraw) :=
  ⟨sampleOcean_reachable,
    ocean_draw_updates_caustics_once_before_floor sampleOcean
      sampleOcean_reachable 0⟩

/-- C7: when the stored parameters are unchanged since the current
generator was built, `resetHeightfield` yields a generator whose height
grid at every time `t` equals the previous generator's grid at the same
`t` — construction from equal parameters is deterministic. -/
theorem ocean_resetHeightfield_same_parameters_same_grid (o o' : Ocean)
    (hcur : mkTessendorf o.tileSize o.waveHeight o.wind (o.length : ℚ)
      o.period = .ok o.heightfield)
    (hres : o.resetHeightfield = .ok o') (t : ℚ) :
    o'.heightfield.heightGrid t = o.heightfield.heightGrid t := by
  unfold Ocean.resetHeightfield at hres
  rw [hcur] at hres
  cases hres
  rfl

/-- Witness for C7 on the sample instance. -/
theorem ocean_resetHeightfield_same_parameters_same_grid_witness :
    (mkTessendorf sampleOcean.tileSize sampleOcean.waveHeight
        sampleOcean.wind (sampleOcean.length : ℚ) sampleOcean.period =
      .ok sampleOcean.heightfield) ∧
      sampleOcean.resetHeightfield = .ok sampleOcean ∧
      sampleOcean.heightfield.heightGrid 1 =
        sampleOcean.heightfield.heightGrid 1 := by
  have h1 : mkTessendorf sampleOcean.tileSize sampleOcean.waveHeight
      sampleOcean.wind (sampleOcean.length : ℚ) sampleOcean.period =
      .ok sampleOcean.heightfield := by
    simp only [sampleOcean, sampleTessendorf, mkTessendorf, isPowerOfTwo]
    norm_num [show (8 &&& 7 : ℕ) = 0 from by decide]
  have h2 : sampleOcean.resetHeightfield = .ok sampleOcean := by
    unfold Ocean.resetHeightfield
    rw [h1]
    rfl
  exact ⟨h1, h2,
    ocean_resetHeightfield_same_parameters_same_grid sampleOcean sampleOcean
      h1 h2 1⟩

/-- C8: `Pool.tap` forwards the tap position unchanged to the ripple height
field and modifies nothing else of the pool; the ripple field's `tap`
enqueues the impulse at the clamped nearest cell, which is a valid cell
index for every position, in or out of range — no position raises. -/
theorem pool_tap_forwards_and_clamps (p : Pool) (pos : Vector2)
    (hn : 0 < p.heightfield.tileSize) :
    (p.tap pos).heightfield = p.heightfield.tap pos ∧
      (p.tap pos).depth = p.depth ∧
      (p.tap pos).surface = p.surface ∧
      p.heightfield.tap pos =
        { p.heightfield with
            pendingTaps := p.heightfield.pendingTaps ++
              [(clampIndex p.heightfield.tileSize pos.x,
                clampIndex p.heightfield.tileSize pos.z)] } ∧
      clampIndex p.heightfield.tileSize pos.x < p.heightfield.tileSize ∧
      clampIndex p.heightfield.tileSize pos.z < p.heightfield.tileSize :=
  ⟨rfl, rfl, rfl, rfl, clampIndex_lt _ _ hn, clampIndex_lt _ _ hn⟩

/-- Witness for C8: an out-of-range tap on an 8×8 pool lands on a valid
cell. -/
theorem pool_tap_forwards_and_clamps_witness :
    0 < (Pool.initState 1 8 1 1 30).heightfield.tileSize ∧
      ((Pool.initState 1 8 1 1 30).tap ⟨100, -3⟩).heightfield =
          (Pool.initState 1 8 1 1 30).heightfield.tap ⟨100, -3⟩ ∧
        clampIndex (Pool.initState 1 8 1 1 30).heightfield.tileSize
            (⟨100, -3⟩ : Vector2).x <
          (Pool.initState 1 8 1 1 30).heightfield.tileSize :=
  ⟨by decide,
    (pool_tap_forwards_and_clamps (Pool.initState 1 8 1 1 30) ⟨100, -3⟩
      (by decide)).1,
    (pool_tap_forwards_and_clamps (Pool.initState 1 8 1 1 30) ⟨100, -3⟩
      (by decide)).2.2.2.2.1⟩

/-- C9: in every reachable `Ocean` state the stored `length` equals the
stored `tileSize`, and the installed generator was built with that
length. -/
theorem ocean_length_always_equals_tileSize (o : Ocean) (h : Reachable o) :
    o.length = o.tileSize ∧
      o.heightfield.length = (o.tileSize : ℚ) :=
  ⟨(reachable_invariants o h).2.2.2.1, (reachable_invariants o h).2.2.2.2.1⟩

/-- Witness for C9 on the sample instance. -/
theorem ocean_length_always_equals_tileSize_witness :
    Reachable sampleOcean ∧
      (sampleOcean.length = sampleOcean.tileSize ∧
        sampleOcean.heightfield.length = (sampleOcean.tileSize : ℚ)) :=
  ⟨sampleOcean_reachable,
    ocean_length_always_equals_tileSize sampleOcean sampleOcean_reachable⟩

/-- C10: in every reachable `Ocean` state the photon intensity and photon
scale stored on the ocean agree with the caustics engine's copies. -/
theorem ocean_photon_parameters_synchronized (o : Ocean) (h : Reachable o) :
    o.photonIntensity = o.caustics.photonIntensity ∧
      o.photonScale = o.caustics.photonScale :=
  ⟨(reachable_invariants o h).2.2.2.2.2.1,
    (reachable_invariants o h).2.2.2.2.2.2⟩

/-- Witness for C10 on the sample instance. -/
theorem ocean_photon_parameters_synchronized_witness :
    Reachable sampleOcean ∧
      (sampleOcean.photonIntensity = sampleOcean.caustics.photonIntensity ∧
        sampleOcean.photonScale = sampleOcean.caustics.photonScale) :=
  ⟨sampleOcean_reachable,
    ocean_photon_parameters_synchronized sampleOcean sampleOcean_reachable⟩

/-- C2: evidence against the claim, as written against `water.py` lines
214–215.  The body of `Pool.setDepth` is
`self.surface.setDepth(self.depth)`: it passes the previously stored depth
and never assigns the argument, so on a pool whose stored depth is 30,
`setDepth(5)` leaves the stored depth at 30 and hands 30 — not 5 — to the
surface. -/
theorem pool_setDepth_ignores_argument :
    ((Pool.initState 1 8 1 1 30).setDepth 5).depth = 30 ∧
      ((Pool.initState 1 8 1 1 30).setDepth 5).depth ≠ 5 ∧
      ((Pool.initState 1 8 1 1 30).setDepth 5).surface.offset.y = 30 ∧
      ((Pool.initState 1 8 1 1 30).setDepth 5).surface.offset.y ≠ 5 :=
  ⟨rfl, by norm_num [Pool.initState, Pool.setDepth],
    rfl, by norm_num [Pool.initState, Pool.setDepth, Surface.setDepth]⟩

/-- C5: evidence against the claim, as written against `water.py`.  Every
`Pool` construction raises: line 197 reads the bare global
`ShaderProgram`, which no import of the module binds, so `__init__` fails
with a `NameError` for all parameter values. -/
theorem pool_init_raises_nameError (scale : ℚ)
    (tileSize tilesX tilesZ : ℕ) (depth : ℚ) :
    Pool.init scale tileSize tilesX tilesZ depth =
      .error (.nameError "ShaderProgram") := rfl

end WaterCaustics
